import Mathlib

/-!
Shallow embedding of the test-artifact capture and reporting lifecycle
engine of the `unittest_playwright` repository, together with proofs of
its specified properties.

The embedding follows the Python sources:
  * `config/videos_config.py`  — `VideosConfig.mode/enabled/record_all`
  * `utils/common.py`          — `is_failed`
  * `utils/video.py`           — `VideoRecorder` (`_retry_delete`,
    `_target_path`, `_safe_delete_tmp`, `handle_test_teardown`)
  * `utils/screenshot.py`      — `ScreenshotHelper` (`_basename`,
    `capture_on_failure`)
  * `core/browser_manager.py`  — `BrowserManager` (`start_browser`,
    `close_browser`, video auto-configuration of the context options)
  * `utils/allure/helper.py`   — `AllureHelper.start_class_container`

External effects (the OS file system, the Playwright driver, the clock)
are passed in as explicit oracles: a `Bool` or `Nat → Bool` flag stands
for "this call raised / succeeded", and Python exceptions are modelled
with `Except Unit`.  A function whose Python original catches every
exception is total here, and the caught branch is recorded in the
returned value.
-/

namespace UnitTestPlaywright

/-- Embeds Python's `str.lower()` (the configuration and identity
strings handled by this engine are ASCII). -/
def strToLower (s : String) : String := String.mk (s.data.map Char.toLower)

/-- Embeds Python's `str.endswith(sfx)`. -/
def strEndsWith (s sfx : String) : Bool := List.isSuffixOf sfx.data s.data

/-! ## Video configuration (`config/videos_config.py`) -/

namespace VideosConfig

/-- Embeds `VideosConfig.VALID_MODES = {"all", "failed_only", "disabled"}`. -/
def VALID_MODES : List String := ["all", "failed_only", "disabled"]

/-- Embeds `VideosConfig.mode`: the configured raw value (already passed
through `str`) is lowercased; an unrecognized value logs a warning and
falls back to `"disabled"`.  The second component records whether the
warning branch was taken. -/
def mode (raw : String) : String × Bool :=
  let m := strToLower raw
  if m ∈ VALID_MODES then (m, false) else ("disabled", true)

/-- Embeds `VideosConfig.enabled`: `mode() != "disabled"`. -/
def enabled (raw : String) : Bool :=
  (mode raw).1 ≠ "disabled"

/-- Embeds `VideosConfig.record_all`: `mode() == "all"`. -/
def record_all (raw : String) : Bool :=
  (mode raw).1 = "all"

end VideosConfig

/-! ## Outcome classifier (`utils/common.py`, `is_failed`) -/

/-- Model of the framework-owned test object stored in a result entry:
`hasId` is the truthiness of `getattr(test, "id", None)`, `idRaises`
tells whether calling `test.id()` raises, and `idStr` is
`str(test.id())` when the call succeeds. -/
structure TestRef where
  hasId : Bool
  idRaises : Bool
  idStr : String
  deriving DecidableEq, Repr

/-- One element of a result's `errors` or `failures` list: the test
reference paired with the truthiness of the error/failure value. -/
structure REntry where
  test : TestRef
  msg : Bool
  deriving DecidableEq, Repr

/-- State of the `errors` / `failures` attribute on the foreign result
object: absent (`getattr` default applies), present but raising when
passed to `list(...)`, or an actual list of entries. -/
inductive RField where
  | missing : RField
  | raising : RField
  | present : List REntry → RField
  deriving DecidableEq, Repr

/-- The foreign framework result object, reduced to the two fields
`is_failed` reads. -/
structure FwResult where
  errors : RField
  failures : RField
  deriving DecidableEq, Repr

/-- The value `list(getattr(result, f, []))` yields for a non-raising
field. -/
def RField.listOf : RField → List REntry
  | .missing => []
  | .raising => []
  | .present l => l

/-- Embeds the guarded fetch in `is_failed`:
`try: errors = list(...); failures = list(...) except: errors = [];
failures = []`.  A raise while fetching either field resets both to the
empty list. -/
def fetchLists (r : FwResult) : List REntry × List REntry :=
  if r.errors = RField.raising ∨ r.failures = RField.raising then ([], [])
  else (r.errors.listOf, r.failures.listOf)

/-- Embeds the per-entry test of `is_failed`:
`(getattr(test, "id", None) and str(test.id()).endswith(suffix)) and err`.
Calling `test.id()` may raise, which propagates. -/
def entryMatches (sfx : String) (e : REntry) : Except Unit Bool :=
  if e.test.hasId then
    if e.test.idRaises then .error ()
    else .ok (strEndsWith e.test.idStr sfx && e.msg)
  else .ok false

/-- Embeds Python's short-circuiting `any(...)` over a generator of
`entryMatches` results: stops at the first `True`; a raise before the
first `True` propagates. -/
def anyEntry (sfx : String) : List REntry → Except Unit Bool
  | [] => .ok false
  | e :: rest =>
    match entryMatches sfx e with
    | .error u => .error u
    | .ok true => .ok true
    | .ok false => anyEntry sfx rest

/-- Embeds `utils.common.is_failed(result, class_name, method_name)`:
suffix is `f"{class_name}.{method_name}"`, `has_error` and
`has_failure` are both computed, and the result is their disjunction.
An uncaught raise inside either `any` propagates as `.error`. -/
def is_failed (r : FwResult) (class_name method_name : String) :
    Except Unit Bool :=
  let sfx := class_name ++ "." ++ method_name
  let el := (fetchLists r).1
  let fl := (fetchLists r).2
  match anyEntry sfx el with
  | .error u => .error u
  | .ok he =>
    match anyEntry sfx fl with
    | .error u => .error u
    | .ok hf => .ok (he || hf)

/-! ## Timestamps and artifact names
(`utils/video.py` `_timestamp`/`_target_path`,
`utils/screenshot.py` `_basename`) -/

/-- A wall-clock instant as `datetime.now()` exposes it to
`strftime("%Y%m%d-%H%M%S")`. -/
structure Tm where
  year : Nat
  month : Nat
  day : Nat
  hour : Nat
  minute : Nat
  second : Nat
  deriving DecidableEq, Repr

/-- Two-digit zero-padded decimal rendering, the `%m`/`%d`/`%H`/`%M`/`%S`
field format of `strftime`. -/
def digits2 (n : Nat) : String :=
  String.mk [Char.ofNat (48 + n / 10 % 10), Char.ofNat (48 + n % 10)]

/-- Four-digit zero-padded decimal rendering, the `%Y` field format of
`strftime` for the years this code can run in. -/
def digits4 (n : Nat) : String :=
  String.mk [Char.ofNat (48 + n / 1000 % 10), Char.ofNat (48 + n / 100 % 10),
             Char.ofNat (48 + n / 10 % 10), Char.ofNat (48 + n % 10)]

/-- Embeds `datetime.now().strftime("%Y%m%d-%H%M%S")`, used by both
`VideoRecorder._timestamp` and `ScreenshotHelper._basename`. -/
def timestampOf (t : Tm) : String :=
  digits4 t.year ++ digits2 t.month ++ digits2 t.day ++ "-" ++
    digits2 t.hour ++ digits2 t.minute ++ digits2 t.second

namespace VideoRecorder

/-- Embeds `VideoRecorder._target_path`: the kept video's path is
`videos_dir/{("failed_" if failed else "")}{class}.{method}.{ts}.webm`. -/
def target_path (videos_dir class_name method_name : String) (failed : Bool)
    (t : Tm) : String :=
  let pfx := if failed then "failed_" else ""
  videos_dir ++ "/" ++ pfx ++ class_name ++ "." ++ method_name ++ "." ++
    timestampOf t ++ ".webm"

end VideoRecorder

namespace ScreenshotHelper

/-- Embeds `ScreenshotHelper._basename`: screenshots are always named
with the `failed_` marker (the helper only ever writes on failure). -/
def basename (class_name method_name : String) (t : Tm) : String :=
  "failed_" ++ class_name ++ "." ++ method_name ++ "." ++ timestampOf t

end ScreenshotHelper

/-- A Playwright page as seen by this engine: only its closed flag
matters to the capture/teardown control flow.  A falsy page object is
modelled by `Option.none` at use sites. -/
structure Pg where
  is_closed : Bool
  deriving DecidableEq, Repr

namespace ScreenshotHelper

/-- Embeds `ScreenshotHelper.capture_on_failure`.  Oracles: `enb` is
`screenshots_config.screenshots_enabled()`, `image_type` is
`screenshots_config.screenshots_type()`, `shotOk` tells whether
`page.screenshot(...)` succeeds, `dir` is `self.screenshots_dir` and
`t` the current instant.  The surrounding `try/except` turns any raise
(including one escaping `is_failed`) into a `none` return. -/
def capture_on_failure (enb : Bool) (page : Option Pg) (r : FwResult)
    (class_name method_name : String) (image_type dir : String)
    (shotOk : Bool) (t : Tm) : Option String :=
  if ¬ enb then none
  else
    match is_failed r class_name method_name with
    | .error _ => none
    | .ok failed =>
      if ¬ failed then none
      else
        match page with
        | none => none
        | some p =>
          if p.is_closed then none
          else
            let path := dir ++ "/" ++ basename class_name method_name t ++
              (if image_type = "jpeg" then ".jpeg" else ".png")
            if shotOk then some path else none

end ScreenshotHelper

/-! ## Bounded deletion retry (`utils/video.py`) -/

namespace VideoRecorder

/-- Observable behaviour of one `_retry_delete` call: the returned value
or raised exception, the number of `os.remove` attempts made, and the
number of `time.sleep(delay_ms / 1000)` pauses taken. -/
structure RetryResult where
  ret : Except Unit Bool
  attemptsMade : Nat
  sleeps : Nat
  deriving Repr

/-- The `for i in range(attempts)` loop of `_retry_delete`, from loop
index `i` with `fuel` iterations left (`fuel ≥ 1` on entry).  `removeOk
k` tells whether the `os.remove` call of iteration `k` succeeds; a
failing non-final iteration sleeps once; when every iteration fails the
recorded exception is re-raised after the loop. -/
def retryLoop (removeOk : Nat → Bool) (i : Nat) : Nat → RetryResult
  | 0 => ⟨.error (), 0, 0⟩
  | fuel + 1 =>
    if removeOk i then ⟨.ok true, 1, 0⟩
    else
      match fuel with
      | 0 => ⟨.error (), 1, 0⟩
      | _ + 1 =>
        let r := retryLoop removeOk (i + 1) fuel
        ⟨r.ret, r.attemptsMade + 1, r.sleeps + 1⟩

/-- Embeds `VideoRecorder._retry_delete(path, attempts, delay_ms)`.
`pexists` is `os.path.exists(path)`.  A falsy path (`None` or the empty
string) or an absent file returns `True` at once; with `attempts = 0`
the loop body never runs and the final `return False` is reached. -/
def retry_delete (path : Option String) (pexists : Bool)
    (removeOk : Nat → Bool) (attempts : Nat) : RetryResult :=
  match path with
  | none => ⟨.ok true, 0, 0⟩
  | some p =>
    if p = "" then ⟨.ok true, 0, 0⟩
    else if ¬ pexists then ⟨.ok true, 0, 0⟩
    else if attempts = 0 then ⟨.ok false, 0, 0⟩
    else retryLoop removeOk 0 attempts

/-- The default attempt budget of `_retry_delete`. -/
def RETRY_ATTEMPTS : Nat := 6

/-- The default fixed delay of `_retry_delete`, in milliseconds. -/
def RETRY_DELAY_MS : Nat := 250

/-- Observable behaviour of `_safe_delete_tmp`: whether the exception
handler (`logger.warning`) ran, and the `os.remove` attempts performed
by the nested `_retry_delete`. -/
structure SafeDeleteResult where
  warned : Bool
  attemptsMade : Nat
  sleeps : Nat
  deriving DecidableEq, Repr

/-- Embeds `VideoRecorder._safe_delete_tmp(video, tmp_path, target_path)`.
Oracles: `hasDelete` is `hasattr(video, "delete")`, `deleteRaises`
whether `video.delete()` raises, `texists` is
`os.path.exists(tmp_path)`, `removeOk` drives the nested
`_retry_delete` (called with its default budget).  Every raise is
caught and logged; the call itself never raises. -/
def safe_delete_tmp (hasDelete deleteRaises : Bool) (tmp_path : Option String)
    (texists : Bool) (target_path : Option String) (removeOk : Nat → Bool) :
    SafeDeleteResult :=
  if hasDelete then
    if deleteRaises then ⟨true, 0, 0⟩ else ⟨false, 0, 0⟩
  else
    match tmp_path with
    | none => ⟨false, 0, 0⟩
    | some tp =>
      if tp = "" then ⟨false, 0, 0⟩
      else if ¬ texists then ⟨false, 0, 0⟩
      else if (match target_path with
               | none => false
               | some tgt => tp = tgt) then ⟨false, 0, 0⟩
      else
        let r := retry_delete (some tp) texists removeOk RETRY_ATTEMPTS
        match r.ret with
        | .ok _ => ⟨false, r.attemptsMade, r.sleeps⟩
        | .error _ => ⟨true, r.attemptsMade, r.sleeps⟩

end VideoRecorder

/-! ## Video finalizer (`utils/video.py`, `handle_test_teardown`) -/

namespace VideoRecorder

/-- Observable behaviour of one `handle_test_teardown` call: the
returned path (or `None`), whether the page was closed, whether a
temporary-file deletion was requested, and whether a save to the
target path succeeded. -/
structure TeardownResult where
  ret : Option String
  pageClosed : Bool
  tmpDeleteRequested : Bool
  saved : Bool
  deriving DecidableEq, Repr

/-- Embeds `VideoRecorder.handle_test_teardown(page, class_name,
method_name, result)`.  Oracles: `cfgMode` is the configured video mode
string, `hasVideo` the truthiness of `getattr(page, "video", None)`,
`saveOk` whether `_safe_save_video` returns `True` (a usable `save_as`
or a copyable temporary file), `videos_dir` the resolved directory and
`t` the current instant.  The outer `try/except` turns a raise escaping
`is_failed` into a `None` return (the page was already closed by then);
`_safe_close_page` and `_safe_delete_tmp` swallow their own errors. -/
def handle_test_teardown (cfgMode : String) (page : Option Pg)
    (hasVideo : Bool) (r : FwResult) (class_name method_name : String)
    (saveOk : Bool) (videos_dir : String) (t : Tm) : TeardownResult :=
  if ¬ VideosConfig.enabled cfgMode then ⟨none, false, false, false⟩
  else
    match page with
    | none => ⟨none, false, false, false⟩
    | some p =>
      if p.is_closed then ⟨none, false, false, false⟩
      else if ¬ hasVideo then ⟨none, true, false, false⟩
      else
        let keep_success := VideosConfig.record_all cfgMode
        match is_failed r class_name method_name with
        | .error _ => ⟨none, true, false, false⟩
        | .ok failed =>
          let target := target_path videos_dir class_name method_name failed t
          if ¬ (failed || keep_success) then ⟨none, true, true, false⟩
          else if saveOk then ⟨some target, true, true, true⟩
          else ⟨none, true, false, false⟩

end VideoRecorder

/-! ## Session manager (`core/browser_manager.py`) -/

namespace BrowserManager

/-- The resource references held by a `BrowserManager` instance; each
flag is the truthiness of the corresponding attribute. -/
structure BMState where
  playwright : Bool
  browser : Bool
  context : Bool
  page : Bool
  is_started : Bool
  deriving DecidableEq, Repr

/-- Failure injection for the driver calls a `BrowserManager` makes. -/
structure DriverEnv where
  browserCloseRaises : Bool
  playwrightStopRaises : Bool
  launchRaises : Bool
  newContextRaises : Bool
  newPageRaises : Bool
  validBrowserType : Bool
  deriving DecidableEq, Repr

/-- Observable behaviour of one `close_browser` call: whether its
`except` handler ran (it logs and swallows, so the call itself never
raises), the state left behind, and which of the two teardown calls
(`browser.close()`, `playwright.stop()`) were attempted. -/
structure StopOutcome where
  caught : Bool
  st : BMState
  browserCloseAttempted : Bool
  playwrightStopAttempted : Bool
  deriving DecidableEq, Repr

/-- Embeds `BrowserManager.close_browser`.  The whole body sits in a
single `try`; a raise from `browser.close()` jumps straight to the
handler, skipping `playwright.stop()` and every later assignment
(including `self._is_started = False`). -/
def close_browser (st : BMState) (env : DriverEnv) : StopOutcome :=
  if st.browser then
    if env.browserCloseRaises then ⟨true, st, true, false⟩
    else
      let st1 : BMState := ⟨st.playwright, false, false, false, st.is_started⟩
      if st1.playwright then
        if env.playwrightStopRaises then ⟨true, st1, true, true⟩
        else ⟨false, ⟨false, false, false, false, false⟩, true, true⟩
      else ⟨false, ⟨st1.playwright, false, false, false, false⟩, true, false⟩
  else
    if st.playwright then
      if env.playwrightStopRaises then ⟨true, st, false, true⟩
      else ⟨false, ⟨false, st.browser, st.context, st.page, false⟩, false, true⟩
    else ⟨false, ⟨st.playwright, st.browser, st.context, st.page, false⟩,
          false, false⟩

/-- Embeds the video auto-configuration block of
`BrowserManager.start_browser`: when the video feature is enabled and
the caller supplied no `record_video_dir` or no `record_video_size`,
the configured directory and size are filled in with `setdefault`
(caller-supplied values win); when the feature is disabled the context
options are untouched, so no recording is ever requested. -/
def applyVideoAutoConfig (cfgMode : String) (callerDir : Option String)
    (callerSize : Option (Nat × Nat)) (cfgDir : String)
    (cfgSize : Nat × Nat) : Option String × Option (Nat × Nat) :=
  if VideosConfig.enabled cfgMode then
    if callerDir.isNone || callerSize.isNone then
      (some (callerDir.getD cfgDir), some (callerSize.getD cfgSize))
    else (callerDir, callerSize)
  else (callerDir, callerSize)

/-- Embeds `BrowserManager.start_browser` (resource flow only; option
plumbing is elided).  If a session is already started, the existing
browser is closed first (a logged warning, not an error).  Each driver
step may raise; the `except` handler calls `close_browser` and
re-raises, so the error value carries the cleaned-up state. -/
def start_browser (st : BMState) (env : DriverEnv) :
    Except Unit Unit × BMState :=
  let st0 := if st.is_started then (close_browser st env).st else st
  let st1 : BMState := ⟨true, st0.browser, st0.context, st0.page, st0.is_started⟩
  if ¬ env.validBrowserType then (.error (), (close_browser st1 env).st)
  else if env.launchRaises then (.error (), (close_browser st1 env).st)
  else
    let st2 : BMState := ⟨st1.playwright, true, st1.context, st1.page, st1.is_started⟩
    if env.newContextRaises then (.error (), (close_browser st2 env).st)
    else
      let st3 : BMState := ⟨st2.playwright, st2.browser, true, st2.page, st2.is_started⟩
      if env.newPageRaises then (.error (), (close_browser st3 env).st)
      else
        (.ok (), ⟨st3.playwright, st3.browser, st3.context, true, true⟩)

end BrowserManager

/-! ## Report lifecycle containers (`utils/allure/helper.py`) -/

namespace AllureHelper

/-- The container bookkeeping of an `AllureHelper`:
`classContainers` models the `_class_containers` dict (class name →
container uuid) and `createdContainers` records every uuid for which
`lifecycle.start_container` was invoked. -/
structure AllureState where
  classContainers : List (String × String)
  createdContainers : List String
  deriving DecidableEq, Repr

/-- Embeds `AllureHelper.start_class_container(class_name)`: when the
class already has a container the call returns immediately; otherwise a
fresh uuid (`freshUuid`, the `uuid.uuid4()` draw) names a new container
and is recorded for the class. -/
def start_class_container (st : AllureState) (class_name freshUuid : String) :
    AllureState :=
  if (st.classContainers.lookup class_name).isSome then st
  else ⟨(class_name, freshUuid) :: st.classContainers,
        freshUuid :: st.createdContainers⟩

end AllureHelper

/-! ## Derived data (spec §3): test outcomes -/

/-- The spec's `TestOutcome` enumeration.  The engine never stores it;
it re-derives `is_failed` from the framework result whenever needed, so
the link between the two is a hypothesis in the theorems below. -/
inductive TestOutcome where
  | passed : TestOutcome
  | failed : TestOutcome
  | errored : TestOutcome
  deriving DecidableEq, Repr

/-- Whether an outcome counts as "not passed", the value `is_failed`
reports for a faithfully shaped framework result. -/
def TestOutcome.failedFlag : TestOutcome → Bool
  | .passed => false
  | .failed => true
  | .errored => true

/-! ## Helper lemmas -/

/-- The truth value `entryMatches` yields for a non-raising entry. -/
def matchVal (sfx : String) (e : REntry) : Bool :=
  e.test.hasId && (strEndsWith e.test.idStr sfx && e.msg)

theorem anyEntry_ok_of_no_raise (sfx : String) (l : List REntry)
    (h : ∀ e ∈ l, e.test.hasId = true → e.test.idRaises = false) :
    anyEntry sfx l = .ok (l.any (matchVal sfx)) := by
  induction l with
  | nil => rfl
  | cons e rest ih =>
    have he := h e (List.mem_cons_self e rest)
    have hrest : ∀ e' ∈ rest, e'.test.hasId = true → e'.test.idRaises = false :=
      fun e' hm => h e' (List.mem_cons_of_mem e hm)
    by_cases hid : e.test.hasId = true
    · have hnr : e.test.idRaises = false := he hid
      by_cases hv : (strEndsWith e.test.idStr sfx && e.msg) = true
      · simp [anyEntry, entryMatches, hid, hnr, hv, matchVal]
      · simp only [Bool.not_eq_true] at hv
        simp [anyEntry, entryMatches, hid, hnr, hv, matchVal, ih hrest]
    · simp only [Bool.not_eq_true] at hid
      simp [anyEntry, entryMatches, hid, matchVal, ih hrest]

theorem is_failed_ok_of_no_raise (r : FwResult) (cn mn : String)
    (he : ∀ e ∈ (fetchLists r).1, e.test.hasId = true → e.test.idRaises = false)
    (hf : ∀ e ∈ (fetchLists r).2, e.test.hasId = true → e.test.idRaises = false) :
    is_failed r cn mn =
      .ok ((fetchLists r).1.any (matchVal (cn ++ "." ++ mn)) ||
           (fetchLists r).2.any (matchVal (cn ++ "." ++ mn))) := by
  simp only [is_failed, anyEntry_ok_of_no_raise _ _ he,
    anyEntry_ok_of_no_raise _ _ hf]

theorem retryLoop_succ (removeOk : Nat → Bool) (i n : Nat) :
    VideoRecorder.retryLoop removeOk i (n + 1) =
      if removeOk i then ⟨.ok true, 1, 0⟩
      else
        match n with
        | 0 => ⟨.error (), 1, 0⟩
        | _ + 1 =>
          let r := VideoRecorder.retryLoop removeOk (i + 1) n
          ⟨r.ret, r.attemptsMade + 1, r.sleeps + 1⟩ := rfl

theorem retryLoop_bounds (removeOk : Nat → Bool) (fuel : Nat) : ∀ i,
    (VideoRecorder.retryLoop removeOk i fuel).attemptsMade ≤ fuel ∧
    (VideoRecorder.retryLoop removeOk i fuel).sleeps ≤ fuel - 1 := by
  induction fuel with
  | zero => intro i; simp [VideoRecorder.retryLoop]
  | succ n ih =>
    intro i
    rw [retryLoop_succ]
    by_cases hr : removeOk i = true
    · simp [hr]
    · simp only [hr, Bool.false_eq_true, if_false]
      cases n with
      | zero => simp
      | succ m =>
        have h := ih (i + 1)
        simp only
        constructor
        · have := h.1; omega
        · have := h.2; omega

theorem retryLoop_all_fail (removeOk : Nat → Bool)
    (hall : ∀ k, removeOk k = false) : ∀ (fuel : Nat), 1 ≤ fuel → ∀ i,
    VideoRecorder.retryLoop removeOk i fuel =
      ⟨.error (), fuel, fuel - 1⟩ := by
  intro fuel
  induction fuel with
  | zero => omega
  | succ n ih =>
    intro _ i
    rw [retryLoop_succ]
    simp only [hall i, Bool.false_eq_true, if_false]
    cases n with
    | zero => rfl
    | succ m =>
      have h := ih (by omega) (i + 1)
      have h2 : m + 1 - 1 + 1 = m + 1 + 1 - 1 := by omega
      simp only [h, h2]

/-! ## Claims -/

/-- C10: for a `None` path or a path naming no existing file,
`_retry_delete` returns `True` immediately with no `os.remove` attempt
and no sleep, for every attempt budget and file-system behaviour. -/
theorem c10_retry_delete_vacuous (path : Option String) (pexists : Bool)
    (removeOk : Nat → Bool) (attempts : Nat)
    (h : path = none ∨ pexists = false) :
    VideoRecorder.retry_delete path pexists removeOk attempts =
      ⟨.ok true, 0, 0⟩ := by
  rcases h with h | h
  · subst h; rfl
  · subst h
    cases path with
    | none => rfl
    | some p =>
      by_cases hp : p = ""
      · simp [VideoRecorder.retry_delete, hp]
      · simp [VideoRecorder.retry_delete, hp]

/-- C10 witness: deleting an absent temporary video with the default
budget succeeds vacuously. -/
theorem c10_retry_delete_vacuous_witness :
    VideoRecorder.retry_delete (some "videos/tmp1.webm") false
      (fun _ => false) 6 = ⟨.ok true, 0, 0⟩ :=
  c10_retry_delete_vacuous (some "videos/tmp1.webm") false
    (fun _ => false) 6 (Or.inr rfl)

/-- C4: with the default budget (6 attempts, 250 ms fixed delay),
`_retry_delete` makes at most 6 `os.remove` attempts and at most 5
sleeps; on a file that never becomes deletable it performs exactly 6
attempts and 5 sleeps and re-raises, and the only caller,
`_safe_delete_tmp`, catches that raise, logs it (`warned`) and returns
normally, so teardown continues. -/
theorem c4_retry_delete_bounded :
    VideoRecorder.RETRY_ATTEMPTS = 6 ∧ VideoRecorder.RETRY_DELAY_MS = 250 ∧
    (∀ (path : Option String) (pexists : Bool) (removeOk : Nat → Bool),
      (VideoRecorder.retry_delete path pexists removeOk
          VideoRecorder.RETRY_ATTEMPTS).attemptsMade ≤ 6 ∧
      (VideoRecorder.retry_delete path pexists removeOk
          VideoRecorder.RETRY_ATTEMPTS).sleeps ≤ 5) ∧
    (∀ (p : String) (removeOk : Nat → Bool), p ≠ "" →
      (∀ k, removeOk k = false) →
      VideoRecorder.retry_delete (some p) true removeOk
          VideoRecorder.RETRY_ATTEMPTS = ⟨.error (), 6, 5⟩) ∧
    (∀ (p : String) (removeOk : Nat → Bool), p ≠ "" →
      (∀ k, removeOk k = false) →
      VideoRecorder.safe_delete_tmp false false (some p) true none removeOk =
        ⟨true, 6, 5⟩) := by
  have hfail : ∀ (p : String) (removeOk : Nat → Bool), p ≠ "" →
      (∀ k, removeOk k = false) →
      VideoRecorder.retry_delete (some p) true removeOk
          VideoRecorder.RETRY_ATTEMPTS = ⟨.error (), 6, 5⟩ := by
    intro p removeOk hp hall
    have h := retryLoop_all_fail removeOk hall 6 (by omega) 0
    simp [VideoRecorder.retry_delete, hp, VideoRecorder.RETRY_ATTEMPTS, h]
  refine ⟨rfl, rfl, ?_, hfail, ?_⟩
  · intro path pexists removeOk
    match path with
    | none => exact ⟨by simp [VideoRecorder.retry_delete], by simp [VideoRecorder.retry_delete]⟩
    | some p =>
      by_cases hp : p = ""
      · simp [VideoRecorder.retry_delete, hp]
      · by_cases hx : pexists = true
        · subst hx
          have h := retryLoop_bounds removeOk 6 0
          have e : VideoRecorder.retry_delete (some p) true removeOk
              VideoRecorder.RETRY_ATTEMPTS =
                VideoRecorder.retryLoop removeOk 0 6 := by
            simp [VideoRecorder.retry_delete, hp, VideoRecorder.RETRY_ATTEMPTS]
          rw [e]
          exact ⟨h.1, by have := h.2; omega⟩
        · simp only [Bool.not_eq_true] at hx
          simp [VideoRecorder.retry_delete, hp, hx]
  · intro p removeOk hp hall
    simp [VideoRecorder.safe_delete_tmp, hp, hfail p removeOk hp hall]

/-- C4 witness: a concrete locked file exhausts the budget, the caller
logs and teardown reaches its normal return. -/
theorem c4_retry_delete_bounded_witness :
    VideoRecorder.safe_delete_tmp false false (some "videos/tmp2.webm") true
      none (fun _ => false) = ⟨true, 6, 5⟩ :=
  c4_retry_delete_bounded.2.2.2.2 "videos/tmp2.webm" (fun _ => false)
    (by decide) (fun _ => rfl)

/-- C8: a configured video-mode value that does not normalize to one of
`all`, `failed_only`, `disabled` makes the `mode` accessor log a
warning and return `disabled` (so never `all`): unknown configuration
fails closed to no video capture. -/
theorem c8_invalid_mode_fails_closed (raw : String)
    (h : strToLower raw ∉ VideosConfig.VALID_MODES) :
    VideosConfig.mode raw = ("disabled", true) := by
  simp [VideosConfig.mode, h]

/-- C8 witness: the unrecognized value `"sometimes"` falls back to
`disabled` with a warning. -/
theorem c8_invalid_mode_fails_closed_witness :
    VideosConfig.mode "sometimes" = ("disabled", true) :=
  c8_invalid_mode_fails_closed "sometimes" (by decide)

theorem start_class_container_noop (st : AllureHelper.AllureState)
    (cn u : String) (h : (st.classContainers.lookup cn).isSome = true) :
    AllureHelper.start_class_container st cn u = st := by
  simp [AllureHelper.start_class_container, h]

/-- C9: `start_class_container` is idempotent.  A call for a class whose
container is already open changes no state and creates no container,
and two consecutive calls for the same class leave exactly the one
container created by the first call. -/
theorem c9_open_container_idempotent :
    (∀ (st : AllureHelper.AllureState) (cn u : String),
      (st.classContainers.lookup cn).isSome = true →
      AllureHelper.start_class_container st cn u = st) ∧
    (∀ (st : AllureHelper.AllureState) (cn u1 u2 : String),
      st.classContainers.lookup cn = none →
      AllureHelper.start_class_container
          (AllureHelper.start_class_container st cn u1) cn u2 =
        AllureHelper.start_class_container st cn u1 ∧
      (AllureHelper.start_class_container
          (AllureHelper.start_class_container st cn u1) cn u2).createdContainers =
        u1 :: st.createdContainers) := by
  refine ⟨start_class_container_noop, ?_⟩
  intro st cn u1 u2 h
  have h1 : AllureHelper.start_class_container st cn u1 =
      ⟨(cn, u1) :: st.classContainers, u1 :: st.createdContainers⟩ := by
    simp [AllureHelper.start_class_container, h]
  have h2 : ((AllureHelper.start_class_container st cn u1).classContainers.lookup
      cn).isSome = true := by
    rw [h1]; simp [List.lookup]
  have h3 := start_class_container_noop _ cn u2 h2
  exact ⟨h3, by rw [h3, h1]⟩

/-- The canonical error entry of claim C6: a framework test object whose
`id()` stringifies to `"mypkg.TestX.test_y"`, paired with a non-empty
error value. -/
def c6Entry : REntry := ⟨⟨true, false, "mypkg.TestX.test_y"⟩, true⟩

/-- A framework result holding exactly the canonical error entry. -/
def c6Result : FwResult := ⟨.present [c6Entry], .present []⟩

/-- C6: a result whose errors list contains an entry stringifying to
`"mypkg.TestX.test_y"` with a non-empty error value is classified as
failed for identity `(TestX, test_y)`; the canonical such result is not
failed for `(TestX, test_z)`; attribution compares the stringified test
reference by the suffix `"{suite}.{method}"` — and indeed the canonical
reference matches by suffix while differing from it outright. -/
theorem c6_suffix_attribution :
    (∀ (el fl : List REntry),
      (∀ e ∈ el, e.test.hasId = true → e.test.idRaises = false) →
      (∀ e ∈ fl, e.test.hasId = true → e.test.idRaises = false) →
      c6Entry ∈ el →
      is_failed ⟨.present el, .present fl⟩ "TestX" "test_y" = .ok true) ∧
    is_failed c6Result "TestX" "test_y" = .ok true ∧
    is_failed c6Result "TestX" "test_z" = .ok false ∧
    (∀ (t : TestRef) (m : Bool) (sfx : String),
      t.hasId = true → t.idRaises = false →
      entryMatches sfx ⟨t, m⟩ = .ok (strEndsWith t.idStr sfx && m)) ∧
    strEndsWith "mypkg.TestX.test_y" "TestX.test_y" = true ∧
    "mypkg.TestX.test_y" ≠ "TestX.test_y" := by
  refine ⟨?_, rfl, rfl, ?_, rfl, by decide⟩
  · intro el fl hel hfl hmem
    have hfetch : fetchLists ⟨.present el, .present fl⟩ = (el, fl) := by
      simp [fetchLists, RField.listOf]
    have he' : ∀ e ∈ (fetchLists ⟨.present el, .present fl⟩).1,
        e.test.hasId = true → e.test.idRaises = false := by
      rw [hfetch]; exact hel
    have hf' : ∀ e ∈ (fetchLists ⟨.present el, .present fl⟩).2,
        e.test.hasId = true → e.test.idRaises = false := by
      rw [hfetch]; exact hfl
    rw [is_failed_ok_of_no_raise _ _ _ he' hf']
    have hany : el.any (matchVal ("TestX" ++ "." ++ "test_y")) = true :=
      List.any_eq_true.mpr ⟨c6Entry, hmem, by decide⟩
    rw [hfetch]
    show Except.ok (el.any (matchVal ("TestX" ++ "." ++ "test_y")) ||
      fl.any (matchVal ("TestX" ++ "." ++ "test_y"))) = Except.ok true
    rw [hany]
    rfl
  · intro t m sfx ht hr
    simp [entryMatches, ht, hr]

/-- C6 witness: the canonical single-error result is classified failed
for `(TestX, test_y)` through the general attribution theorem. -/
theorem c6_suffix_attribution_witness :
    is_failed ⟨.present [c6Entry], .present []⟩ "TestX" "test_y" = .ok true :=
  c6_suffix_attribution.1 [c6Entry] [] (by decide) (by decide)
    (List.mem_singleton.mpr rfl)

/-- A framework result whose single error entry carries a test object
with an `id` attribute whose invocation raises. -/
def c7Bad : FwResult := ⟨.present [⟨⟨true, true, "boom"⟩, true⟩], .missing⟩

/-- C7 counterexample: the claim says `is_failed` never raises for any
framework result object, but an errors entry whose `id()` call raises
propagates out of `is_failed` (the `try/except` only guards the field
fetch, not the iteration). -/
theorem c7_counterexample :
    is_failed c7Bad "TestX" "test_y" = .error () := rfl

/-- C7 (amended): `is_failed` never raises provided each entry's test
reference can be stringified without raising; and when the result
object's `errors`/`failures` fields are missing (or cannot even be
listed) it returns false without raising. -/
theorem c7_defensive_classifier :
    (∀ (r : FwResult) (cn mn : String),
      (∀ e ∈ (fetchLists r).1, e.test.hasId = true → e.test.idRaises = false) →
      (∀ e ∈ (fetchLists r).2, e.test.hasId = true → e.test.idRaises = false) →
      ∃ b, is_failed r cn mn = .ok b) ∧
    (∀ (cn mn : String) (ef ff : RField),
      (ef = .missing ∨ ef = .raising) → (ff = .missing ∨ ff = .raising) →
      is_failed ⟨ef, ff⟩ cn mn = .ok false) := by
  constructor
  · intro r cn mn he hf
    exact ⟨_, is_failed_ok_of_no_raise r cn mn he hf⟩
  · intro cn mn ef ff he hf
    rcases he with he | he <;> rcases hf with hf | hf <;> subst he <;> subst hf <;> rfl

/-- C7 amended-claim witness: a result missing both fields is classified
not failed, without raising. -/
theorem c7_defensive_classifier_witness :
    is_failed ⟨.missing, .missing⟩ "TestX" "test_y" = .ok false :=
  c7_defensive_classifier.2 "TestX" "test_y" .missing .missing
    (Or.inl rfl) (Or.inl rfl)

theorem digits2_length (n : Nat) : (digits2 n).length = 2 := rfl

theorem digits4_length (n : Nat) : (digits4 n).length = 4 := rfl

/-- C5: every kept screenshot is named
`dir/failed_{class}.{method}.{ts}.{png|jpeg}` and is only kept when the
outcome was not passed (so the `failed_` marker is present exactly for
non-passed outcomes); every kept video is named
`dir/{("failed_" if failed else "")}{class}.{method}.{ts}.webm` with
the marker present iff the outcome was not passed; the timestamp has
second resolution, `YYYYMMDD-HHMMSS` (14 digits and a dash). -/
theorem c5_artifact_naming :
    (∀ (enb : Bool) (page : Option Pg) (r : FwResult)
       (cn mn itype dir : String) (shotOk : Bool) (t : Tm) (p : String),
      ScreenshotHelper.capture_on_failure enb page r cn mn itype dir shotOk t =
          some p →
      is_failed r cn mn = .ok true ∧
      p = dir ++ "/" ++ ScreenshotHelper.basename cn mn t ++
          (if itype = "jpeg" then ".jpeg" else ".png")) ∧
    (∀ (cn mn : String) (t : Tm),
      ScreenshotHelper.basename cn mn t =
        "failed_" ++ cn ++ "." ++ mn ++ "." ++ timestampOf t) ∧
    (∀ (cfgMode : String) (page : Option Pg) (hasVideo : Bool) (r : FwResult)
       (cn mn : String) (saveOk : Bool) (vdir : String) (t : Tm) (p : String),
      (VideoRecorder.handle_test_teardown cfgMode page hasVideo r cn mn saveOk
          vdir t).ret = some p →
      ∃ failed, is_failed r cn mn = .ok failed ∧
        p = VideoRecorder.target_path vdir cn mn failed t) ∧
    (∀ (vdir cn mn : String) (failed : Bool) (t : Tm),
      VideoRecorder.target_path vdir cn mn failed t =
        vdir ++ "/" ++ (if failed then "failed_" else "") ++ cn ++ "." ++ mn ++
          "." ++ timestampOf t ++ ".webm") ∧
    (∀ t : Tm, (timestampOf t).length = 15) := by
  refine ⟨?_, fun cn mn t => rfl, ?_, fun vdir cn mn failed t => rfl, ?_⟩
  · intro enb page r cn mn itype dir shotOk t p hsome
    cases enb with
    | false => simp [ScreenshotHelper.capture_on_failure] at hsome
    | true =>
      cases hq : is_failed r cn mn with
      | error u =>
        simp [ScreenshotHelper.capture_on_failure, hq] at hsome
      | ok failed =>
        cases failed with
        | false => simp [ScreenshotHelper.capture_on_failure, hq] at hsome
        | true =>
          cases page with
          | none => simp [ScreenshotHelper.capture_on_failure, hq] at hsome
          | some pg =>
            obtain ⟨pc⟩ := pg
            cases pc with
            | true => simp [ScreenshotHelper.capture_on_failure, hq] at hsome
            | false =>
              cases shotOk with
              | false => simp [ScreenshotHelper.capture_on_failure, hq] at hsome
              | true =>
                refine ⟨rfl, ?_⟩
                have e : ScreenshotHelper.capture_on_failure true (some ⟨false⟩)
                    r cn mn itype dir true t =
                      some (dir ++ "/" ++ ScreenshotHelper.basename cn mn t ++
                        (if itype = "jpeg" then ".jpeg" else ".png")) := by
                  simp [ScreenshotHelper.capture_on_failure, hq]
                rw [e] at hsome
                exact (Option.some.inj hsome).symm
  · intro cfgMode page hasVideo r cn mn saveOk vdir t p hsome
    by_cases hE : VideosConfig.enabled cfgMode = true
    case neg =>
      simp only [Bool.not_eq_true] at hE
      simp [VideoRecorder.handle_test_teardown, hE] at hsome
    case pos =>
      cases page with
      | none => simp [VideoRecorder.handle_test_teardown, hE] at hsome
      | some pg =>
        obtain ⟨pc⟩ := pg
        cases pc with
        | true => simp [VideoRecorder.handle_test_teardown, hE] at hsome
        | false =>
          cases hasVideo with
          | false => simp [VideoRecorder.handle_test_teardown, hE] at hsome
          | true =>
            cases hq : is_failed r cn mn with
            | error u =>
              simp [VideoRecorder.handle_test_teardown, hE, hq] at hsome
            | ok failed =>
              by_cases hk : (failed || VideosConfig.record_all cfgMode) = true
              case neg =>
                simp only [Bool.not_eq_true] at hk
                simp [VideoRecorder.handle_test_teardown, hE, hq, hk] at hsome
              case pos =>
                cases saveOk with
                | false =>
                  simp [VideoRecorder.handle_test_teardown, hE, hq, hk] at hsome
                | true =>
                  refine ⟨failed, rfl, ?_⟩
                  have e : (VideoRecorder.handle_test_teardown cfgMode
                      (some ⟨false⟩) true r cn mn true vdir t).ret =
                        some (VideoRecorder.target_path vdir cn mn failed t) := by
                    simp [VideoRecorder.handle_test_teardown, hE, hq, hk]
                  rw [e] at hsome
                  exact (Option.some.inj hsome).symm
  · intro t
    simp only [timestampOf, String.length_append, digits2_length, digits4_length]
    rfl

/-- A framework result marking `TestLogin.test_bad_password` as failed,
as the hosting framework would record it. -/
def c5Result : FwResult :=
  ⟨.present [⟨⟨true, false, "pkg.TestLogin.test_bad_password"⟩, true⟩],
   .present []⟩

/-- C5 witness: a failed screenshot capture at a concrete instant
produces the spec's exact file name. -/
theorem c5_artifact_naming_witness :
    is_failed c5Result "TestLogin" "test_bad_password" = .ok true ∧
    "screenshots/failed_TestLogin.test_bad_password.20261012-030405.png" =
      "screenshots" ++ "/" ++
        ScreenshotHelper.basename "TestLogin" "test_bad_password"
          ⟨2026, 10, 12, 3, 4, 5⟩ ++
        (if "png" = "jpeg" then ".jpeg" else ".png") :=
  c5_artifact_naming.1 true (some ⟨false⟩) c5Result "TestLogin"
    "test_bad_password" "png" "screenshots" true ⟨2026, 10, 12, 3, 4, 5⟩
    "screenshots/failed_TestLogin.test_bad_password.20261012-030405.png" rfl

/-- A framework result marking `TestX.test_y` as failed, used to
instantiate the retention theorem. -/
def c1Result : FwResult :=
  ⟨.present [⟨⟨true, false, "suite.TestX.test_y"⟩, true⟩], .present []⟩

/-- C1: for every configured mode m ∈ {all, failed_only, disabled} and
every outcome, the teardown keeps (returns a target path for) the video
iff m = all, or m = failed_only and the outcome is not passed — given a
live page with a video handle and a successful save; and in mode
disabled the finalizer returns null touching nothing, while the session
manager's auto-configuration requests no recording from the driver. -/
theorem c1_video_retention (m : String) (hm : m ∈ VideosConfig.VALID_MODES)
    (o : TestOutcome) (r : FwResult) (cn mn : String)
    (hres : is_failed r cn mn = .ok o.failedFlag) (vdir : String) (t : Tm) :
    (((VideoRecorder.handle_test_teardown m (some ⟨false⟩) true r cn mn true
        vdir t).ret.isSome = true) ↔
      (m = "all" ∨ (m = "failed_only" ∧ o ≠ TestOutcome.passed))) ∧
    (m = "disabled" →
      (∀ (page : Option Pg) (hasVideo saveOk : Bool),
        VideoRecorder.handle_test_teardown m page hasVideo r cn mn saveOk
          vdir t = ⟨none, false, false, false⟩) ∧
      (∀ (callerDir : Option String) (callerSize : Option (Nat × Nat))
         (cfgDir : String) (cfgSize : Nat × Nat),
        BrowserManager.applyVideoAutoConfig m callerDir callerSize cfgDir
          cfgSize = (callerDir, callerSize))) := by
  simp only [VideosConfig.VALID_MODES, List.mem_cons,
    List.not_mem_nil, or_false] at hm
  rcases hm with h | h | h
  · subst h
    have hE : VideosConfig.enabled "all" = true := by decide
    have hR : VideosConfig.record_all "all" = true := by decide
    refine ⟨?_, fun hd => absurd hd (by decide)⟩
    have hL : (VideoRecorder.handle_test_teardown "all" (some ⟨false⟩) true r
        cn mn true vdir t).ret.isSome = true := by
      simp [VideoRecorder.handle_test_teardown, hE, hR, hres]
    rw [hL]
    exact ⟨fun _ => Or.inl rfl, fun _ => rfl⟩
  · subst h
    have hE : VideosConfig.enabled "failed_only" = true := by decide
    have hR : VideosConfig.record_all "failed_only" = false := by decide
    refine ⟨?_, fun hd => absurd hd (by decide)⟩
    cases o with
    | passed =>
      have hL : (VideoRecorder.handle_test_teardown "failed_only"
          (some ⟨false⟩) true r cn mn true vdir t).ret.isSome = false := by
        simp [VideoRecorder.handle_test_teardown, hE, hR, hres,
          TestOutcome.failedFlag]
      rw [hL]
      constructor
      · intro hc; exact absurd hc (by decide)
      · rintro (hc | ⟨_, hc⟩)
        · exact absurd hc (by decide)
        · exact absurd rfl hc
    | failed =>
      have hL : (VideoRecorder.handle_test_teardown "failed_only"
          (some ⟨false⟩) true r cn mn true vdir t).ret.isSome = true := by
        simp [VideoRecorder.handle_test_teardown, hE, hR, hres,
          TestOutcome.failedFlag]
      rw [hL]
      exact ⟨fun _ => Or.inr ⟨rfl, by decide⟩, fun _ => rfl⟩
    | errored =>
      have hL : (VideoRecorder.handle_test_teardown "failed_only"
          (some ⟨false⟩) true r cn mn true vdir t).ret.isSome = true := by
        simp [VideoRecorder.handle_test_teardown, hE, hR, hres,
          TestOutcome.failedFlag]
      rw [hL]
      exact ⟨fun _ => Or.inr ⟨rfl, by decide⟩, fun _ => rfl⟩
  · subst h
    have hE : VideosConfig.enabled "disabled" = false := by decide
    constructor
    · have hL : (VideoRecorder.handle_test_teardown "disabled" (some ⟨false⟩)
          true r cn mn true vdir t).ret.isSome = false := by
        simp [VideoRecorder.handle_test_teardown, hE]
      rw [hL]
      constructor
      · intro hc; exact absurd hc (by decide)
      · rintro (hc | ⟨hc, _⟩) <;> exact absurd hc (by decide)
    · intro _
      refine ⟨fun page hv so => ?_, fun d s cd cs => ?_⟩
      · simp [VideoRecorder.handle_test_teardown, hE]
      · simp [BrowserManager.applyVideoAutoConfig, hE]

/-- C1 witness: in mode failed_only a failed test's video is kept. -/
theorem c1_video_retention_witness :
    (VideoRecorder.handle_test_teardown "failed_only" (some ⟨false⟩) true
      c1Result "TestX" "test_y" true "videos"
      ⟨2026, 10, 12, 1, 2, 3⟩).ret.isSome = true :=
  (c1_video_retention "failed_only" (by decide) TestOutcome.failed c1Result
      "TestX" "test_y" rfl "videos" ⟨2026, 10, 12, 1, 2, 3⟩).1.mpr
    (Or.inr ⟨rfl, by decide⟩)

/-- A `BrowserManager` holding a fully started session. -/
def startedState : BrowserManager.BMState := ⟨true, true, true, true, true⟩

/-- A driver in which every call succeeds. -/
def benignEnv : BrowserManager.DriverEnv :=
  ⟨false, false, false, false, false, true⟩

/-- A driver in which only `browser.close()` raises. -/
def closeFailEnv : BrowserManager.DriverEnv :=
  ⟨true, false, false, false, false, true⟩

/-- C2 counterexample: the claim says a start call while a session is
active fails with StartupError without creating a new session; in the
code the call closes the existing browser (after a logged warning) and
returns successfully with a freshly started session. -/
theorem c2_counterexample :
    startedState.is_started = true ∧
    (BrowserManager.start_browser startedState benignEnv).1 = .ok () ∧
    (BrowserManager.start_browser startedState benignEnv).2.is_started
      = true :=
  ⟨rfl, rfl, rfl⟩

/-- C2 (amended): a start call made while a session is already active
does not fail; it closes the existing session first and, when the
driver steps succeed, returns successfully with a new fully started
session. -/
theorem c2_restart_semantics (pw br cx pg : Bool) :
    BrowserManager.start_browser ⟨pw, br, cx, pg, true⟩ benignEnv =
      (.ok (), ⟨true, true, true, true, true⟩) := by
  cases pw <;> cases br <;> cases cx <;> cases pg <;> rfl

/-- C3 counterexample: the claim says both teardown steps are attempted
independently; but when `browser.close()` raises, the single exception
handler is entered (`caught`) and `playwright.stop()` is never
attempted. -/
theorem c3_counterexample :
    (BrowserManager.close_browser startedState closeFailEnv).caught = true ∧
    (BrowserManager.close_browser startedState
        closeFailEnv).browserCloseAttempted = true ∧
    (BrowserManager.close_browser startedState
        closeFailEnv).playwrightStopAttempted = false :=
  ⟨rfl, rfl, rfl⟩

/-- C3 (amended): stop never raises — every exception from either
teardown call is caught by its single handler — but the steps are not
independent: a raise in `browser.close()` skips `playwright.stop()` and
leaves the state (including the started flag) unchanged, while after a
successful close the stop of the driver handle is attempted exactly
when one is held. -/
theorem c3_stop_swallows_but_skips :
    (∀ (st : BrowserManager.BMState) (env : BrowserManager.DriverEnv),
      (BrowserManager.close_browser st env).caught =
        ((st.browser && env.browserCloseRaises) ||
          (!(st.browser && env.browserCloseRaises) && st.playwright &&
            env.playwrightStopRaises))) ∧
    (∀ (pw cx pg ist b2 b3 b4 b5 b6 : Bool),
      BrowserManager.close_browser ⟨pw, true, cx, pg, ist⟩
          ⟨true, b2, b3, b4, b5, b6⟩ =
        ⟨true, ⟨pw, true, cx, pg, ist⟩, true, false⟩) ∧
    (∀ (pw cx pg ist b2 b3 b4 b5 b6 : Bool),
      (BrowserManager.close_browser ⟨pw, true, cx, pg, ist⟩
          ⟨false, b2, b3, b4, b5, b6⟩).playwrightStopAttempted = pw) := by
  refine ⟨?_, ?_, ?_⟩
  · intro st env
    obtain ⟨pw, br, cx, pg, ist⟩ := st
    obtain ⟨a, b, c, d, e, f⟩ := env
    cases br <;> cases a <;> cases pw <;> cases b <;> rfl
  · intro pw cx pg ist b2 b3 b4 b5 b6
    rfl
  · intro pw cx pg ist b2 b3 b4 b5 b6
    cases pw <;> cases b2 <;> rfl

/-- C9 witness: opening the `TestLogin` container twice on a fresh
helper records exactly one container. -/
theorem c9_open_container_idempotent_witness :
    AllureHelper.start_class_container
        (AllureHelper.start_class_container ⟨[], []⟩ "TestLogin" "uuid-1")
        "TestLogin" "uuid-2" =
      AllureHelper.start_class_container ⟨[], []⟩ "TestLogin" "uuid-1" :=
  (c9_open_container_idempotent.2 ⟨[], []⟩ "TestLogin" "uuid-1" "uuid-2" rfl).1

end UnitTestPlaywright
